import Mathlib

/-!
Shallow embedding of the Go package `creditcard` (file creditcard.go).

Modelling conventions:
  * Go strings are modelled as Lean `String` (sequences of characters); the
    card numbers, CVVs and messages of interest are ASCII, where Go byte
    indexing and Lean character indexing agree.
  * Go `int` is modelled as `Int`.
  * A Go runtime fault (out-of-range string slice) is modelled by `Option`:
    `none` means the function faults instead of returning.
  * `strconv.Atoi` discards its error at every call site, yielding 0; the
    model `goAtoi` returns the parsed value, or 0 when Go would report an
    error (empty input, stray sign, non-digit character).
  * Wall-clock instants are modelled by a `Nat` code `y*10000 + m*100 + d`,
    which orders calendar dates lexicographically; `time.Now()` becomes an
    explicit `now : Nat` parameter and the zero `time.Time` (January 1 of
    year 1) is `timeCode 1 1 1`.
  * `time.Parse("2006-01-02", s)` is modelled by `goParseDate2006`, which
    accepts exactly the 10-character fixed-width form the layout demands
    (4 digit year, dash, 2 digit month, dash, 2 digit day, month in 1..12);
    Go additionally bounds the day by the month length, but every call site
    supplies day "01", where the two agree.
-/

namespace Creditcard

/-- The Go struct `Card`. -/
structure Card where
  -- the Go field is named Type, a reserved word in Lean
  Typ : String
  Number : String
  ExpiryMonth : Int
  ExpiryYear : Int
  CVV : String
deriving DecidableEq, Repr

/-- The Go struct `Validation`, minus the pointer back to the card (the
updated card is returned alongside instead, making the write-back of the
`Type` field explicit). -/
structure Validation where
  ValidCardNumber : Bool
  ValidExpiryMonth : Bool
  ValidExpiryYear : Bool
  ValidCVV : Bool
  IsExpired : Bool
  Errors : List String
deriving DecidableEq, Repr

/-- The Go enumeration `cardType`. -/
inductive cardType where
  | Unknown
  | AmericanExpress
  | Aura
  | Bankcard
  | Cabal
  | ChinaUnionPay
  | Dankort
  | DinersClubCarteBlanche
  | DinersClubEnroute
  | DinersClubInternational
  | Discover
  | Elo
  | Hipercard
  | InstaPayment
  | InterPayment
  | JCB
  | Maestro
  | Mastercard
  | Visa
  | VisaElectron
deriving DecidableEq, Repr

/-- Go method name() on cardType: lookup in the Go array `cardTypeNames`. -/
def cardType.name : cardType → String
  | .Unknown => "Unknown Card"
  | .AmericanExpress => "American Express"
  | .Aura => "Aura"
  | .Bankcard => "Bankcard"
  | .Cabal => "Cabal"
  | .ChinaUnionPay => "China UnionPay"
  | .Dankort => "Dankort"
  | .DinersClubCarteBlanche => "Diners Club Carte Blanche"
  | .DinersClubEnroute => "Diners Club Enroute"
  | .DinersClubInternational => "Diners Club International"
  | .Discover => "Discover"
  | .Elo => "Elo"
  | .Hipercard => "Hipercard"
  | .InstaPayment => "InstaPayment"
  | .InterPayment => "InterPayment"
  | .JCB => "JCB"
  | .Maestro => "Maestro"
  | .Mastercard => "Mastercard"
  | .Visa => "Visa"
  | .VisaElectron => "Visa Electron"

deriving instance DecidableEq for Except

/-- Decimal value of a digit character. -/
def charDigit (ch : Char) : Nat := ch.toNat - 48

/-- Accumulated decimal value of a digit string, as in the Go `strconv`
fast path (`n = n*10 + ch`). -/
def digitsVal (l : List Char) : Nat :=
  l.foldl (fun acc ch => acc * 10 + charDigit ch) 0

/-- Model of `strconv.Atoi` with the error discarded: an optional sign
followed by at least one digit parses to its value; anything else yields
the zero value Go returns together with the error. All call sites pass
strings of at most 6 characters, so the `int` never overflows. -/
def goAtoi (s : String) : Int :=
  match s.data with
  | [] => 0
  | ch :: rest =>
    if ch = '+' then
      (if rest ≠ [] ∧ rest.all Char.isDigit then (digitsVal rest : Int) else 0)
    else if ch = '-' then
      (if rest ≠ [] ∧ rest.all Char.isDigit then -(digitsVal rest : Int) else 0)
    else
      (if (ch :: rest).all Char.isDigit then (digitsVal (ch :: rest) : Int) else 0)

/-- The Go array `ccDigits` of `determineCardType`, read through
`digits.at(n) = ccDigits[n-1]`: the slot holds `Atoi(number[:n])` when
`n-1 < len(number)` and stays 0 otherwise. -/
def ccDigitsAt (number : String) (n : Nat) : Int :=
  if n - 1 < number.length then goAtoi (String.mk (number.data.take n)) else 0

/-- The single quote character, used inside several error messages. -/
def sq : String := String.singleton (Char.ofNat 39)

/-- Rendering of the Go format string for an invalid month: the word
month, the value wrapped in single quotes, then the rest of the text. -/
def monthMsg (m : Int) : String :=
  "month " ++ sq ++ toString m ++ sq ++ " is not a valid month"

/-- Rendering of the Go format string for an invalid year: the word year,
the value wrapped in single quotes, then the rest of the text. -/
def yearMsg (y : Int) : String :=
  "year " ++ sq ++ toString y ++ sq ++ " is not a valid year"

def msgExpired : String := "creditcard is expired"

def msgCvv : String := "cvv doesn" ++ sq ++ "t match"

def msgNumber : String := "card number is not valid"

def msgUnknown : String := "unknown creditcard type"

def msgMismatch : String :=
  "given card type doesn" ++ sq ++ "t match determined card type"

set_option linter.unusedVariables false in
/-- The switch of `determineCardType`, with the six prefix values passed in.
`none` models the Go runtime fault raised by the slice `c.Number[:3]` in the
Maestro case when the number is shorter than 3 characters; the slice is
reached only after the ten 4-digit Maestro tests fail, matching the
left-to-right short-circuit evaluation of the Go `case` expression. The
Go local `ccLen := len(c.Number)` is inlined as `number.length`. -/
def determineSwitch (number : String) (at1 at2 at3 at4 at5 at6 : Int) :
    Option (Except String cardType) :=
  if at4 = 4011 ∨ at6 = 431274 ∨ at6 = 438935 ∨
      at6 = 451416 ∨ at6 = 457393 ∨ at4 = 4576 ∨
      at6 = 457631 ∨ at6 = 457632 ∨ at6 = 504175 ∨
      at6 = 627780 ∨ at6 = 636297 ∨ at6 = 636368 ∨
      at6 = 636369 ∨ (at6 ≥ 506699 ∧ at6 ≤ 506778) ∨
      (at6 ≥ 509000 ∧ at6 ≤ 509999) ∨
      (at6 ≥ 650031 ∧ at6 ≤ 650051) ∨
      (at6 ≥ 650035 ∧ at6 ≤ 650033) ∨
      (at6 ≥ 650405 ∧ at6 ≤ 650439) ∨
      (at6 ≥ 650485 ∧ at6 ≤ 650538) ∨
      (at6 ≥ 650541 ∧ at6 ≤ 650598) ∨
      (at6 ≥ 650700 ∧ at6 ≤ 650718) ∨
      (at6 ≥ 650720 ∧ at6 ≤ 650727) ∨
      (at6 ≥ 650901 ∧ at6 ≤ 650920) ∨
      (at6 ≥ 651652 ∧ at6 ≤ 651679) ∨
      (at6 ≥ 655000 ∧ at6 ≤ 655019) ∨
      (at6 ≥ 655021 ∧ at6 ≤ 655021) then
    some (Except.ok cardType.Elo)
  else if at6 ≥ 604201 ∧ at6 ≤ 604219 then
    some (Except.ok cardType.Cabal)
  else if at6 = 384100 ∨ at6 = 384140 ∨ at6 = 384160 ∨
      at6 = 606282 ∨ at6 = 637095 ∨ at4 = 637568 ∨
      at4 = 637599 ∨ at4 = 637609 ∨ at4 = 637612 then
    some (Except.ok cardType.Hipercard)
  else if at2 = 34 ∨ at2 = 37 then
    some (Except.ok cardType.AmericanExpress)
  else if at4 = 5610 ∨ (at6 ≥ 560221 ∧ at6 ≤ 560225) then
    some (Except.ok cardType.Bankcard)
  else if at2 = 62 then
    some (Except.ok cardType.ChinaUnionPay)
  else if at3 ≥ 300 ∧ at3 ≤ 305 ∧ number.length = 15 then
    some (Except.ok cardType.DinersClubCarteBlanche)
  else if at4 = 2014 ∨ at4 = 2149 then
    some (Except.ok cardType.DinersClubEnroute)
  else if ((at3 ≥ 300 ∧ at3 ≤ 305) ∨ at3 = 309 ∨
      at2 = 36 ∨ at2 = 38 ∨ at2 = 39) ∧ number.length ≤ 14 then
    some (Except.ok cardType.DinersClubInternational)
  else if at4 = 6011 ∨ (at6 ≥ 622126 ∧ at6 ≤ 622925) ∨
      (at3 ≥ 644 ∧ at3 ≤ 649) ∨ at2 = 65 then
    some (Except.ok cardType.Discover)
  else if at3 = 636 ∧ number.length ≥ 16 ∧ number.length ≤ 19 then
    some (Except.ok cardType.InterPayment)
  else if at3 ≥ 637 ∧ at3 ≤ 639 ∧ number.length = 16 then
    some (Except.ok cardType.InstaPayment)
  else if at4 = 5018 ∨ at4 = 5020 ∨ at4 = 5038 ∨
      at4 = 5612 ∨ at4 = 5893 ∨ at4 = 6304 ∨
      at4 = 6759 ∨ at4 = 6761 ∨ at4 = 6762 ∨ at4 = 6763 then
    some (Except.ok cardType.Maestro)
  else if number.length < 3 then
    none
  else if String.mk (number.data.take 3) = "0604" ∨ at4 = 6390 then
    some (Except.ok cardType.Maestro)
  else if at4 = 5019 then
    some (Except.ok cardType.Dankort)
  else if at2 ≥ 51 ∧ at2 ≤ 55 then
    some (Except.ok cardType.Mastercard)
  else if at2 = 35 then
    some (Except.ok cardType.JCB)
  else if at2 = 50 then
    some (Except.ok cardType.Aura)
  else if at4 = 4026 ∨ at6 = 417500 ∨ at4 = 4405 ∨
      at4 = 4508 ∨ at4 = 4844 ∨ at4 = 4913 ∨ at4 = 4917 then
    some (Except.ok cardType.VisaElectron)
  else if at1 = 4 then
    some (Except.ok cardType.Visa)
  else
    some (Except.error msgUnknown)

/-- Go method determineCardType on Card. -/
def Card.determineCardType (c : Card) : Option (Except String cardType) :=
  determineSwitch c.Number
    (ccDigitsAt c.Number 1) (ccDigitsAt c.Number 2) (ccDigitsAt c.Number 3)
    (ccDigitsAt c.Number 4) (ccDigitsAt c.Number 5) (ccDigitsAt c.Number 6)

/-- The loop body sum of `validateLuhn`, over the characters of the number
from the rightmost, with the `alternate` flag threaded exactly as in the Go
loop. -/
def luhnSumRev : List Char → Bool → Int
  | [], _ => 0
  | ch :: rest, alternate =>
    let m0 := goAtoi (String.singleton ch)
    let m := if alternate then (if m0 * 2 > 9 then m0 * 2 % 10 + 1 else m0 * 2) else m0
    m + luhnSumRev rest (!alternate)

/-- Go method validateLuhn on Card. -/
def Card.validateLuhn (c : Card) : Bool :=
  if c.Number.length < 13 ∨ c.Number.length > 19 then false
  else luhnSumRev c.Number.data.reverse false % 10 == 0

/-- Go method validExpiryMonth on Card. -/
def Card.validExpiryMonth (c : Card) : Bool :=
  if c.ExpiryMonth < 1 ∨ 12 < c.ExpiryMonth then false else true

/-- Go method validExpiryYear on Card. -/
def Card.validExpiryYear (c : Card) : Bool :=
  if c.ExpiryYear < 1900 ∨ c.ExpiryYear > 2200 then false else true

/-- Calendar instant code: orders the dates appearing here the same way
`time.Time.Before` orders the corresponding instants. -/
def timeCode (y m d : Nat) : Nat := y * 10000 + m * 100 + d

/-- Rendering of the Go format string building the first-of-month date:
year, dash, month, dash, day 01. -/
def expiryDateString (y m : Int) : String :=
  toString y ++ "-" ++ toString m ++ "-01"

/-- Model of `time.Parse("2006-01-02", s)`: the fixed-width layout demands
exactly 4 digits, a dash, 2 digits, a dash and 2 digits, with the month in
1..12 and the day at least 1 (Go also bounds the day by the month length;
every call here has day 01, where both agree). Anything else is a parse
error, modelled as `none`. -/
def goParseDate2006 (s : String) : Option (Nat × Nat × Nat) :=
  match s.data with
  | [y1, y2, y3, y4, h1, m1, m2, h2, d1, d2] =>
    if y1.isDigit ∧ y2.isDigit ∧ y3.isDigit ∧ y4.isDigit ∧ h1 = '-' ∧
        m1.isDigit ∧ m2.isDigit ∧ h2 = '-' ∧ d1.isDigit ∧ d2.isDigit then
      let y := digitsVal [y1, y2, y3, y4]
      let mo := charDigit m1 * 10 + charDigit m2
      let d := charDigit d1 * 10 + charDigit d2
      if 1 ≤ mo ∧ mo ≤ 12 ∧ 1 ≤ d ∧ d ≤ 31 then some (y, mo, d) else none
    else none
  | _ => none

/-- Go method isExpired on Card, with `time.Now()` passed in as `now`. A failed
parse is discarded by the Go code, leaving the zero `time.Time`
(`timeCode 1 1 1`), which is before any present-day instant. -/
def Card.isExpired (c : Card) (now : Nat) : Bool :=
  if !c.validExpiryMonth || !c.validExpiryYear then true
  else
    match goParseDate2006 (expiryDateString c.ExpiryYear c.ExpiryMonth) with
    | some (y, m, d) => decide (timeCode y m d < now)
    | none => decide (timeCode 1 1 1 < now)

/-- Go method matchCVV on Card. -/
def Card.matchCVV (c : Card) : Bool :=
  if c.Typ = "American Express" then c.CVV.length == 4
  else c.CVV.length == 3

/-- Go method validCardNumber on Card: the flag together with the optional
error message; `none` propagates the classifier fault. -/
def Card.validCardNumber (c : Card) : Option (Bool × Option String) :=
  match c.determineCardType with
  | none => none
  | some (Except.error e) => some (false, some e)
  | some (Except.ok t) =>
    if t.name ≠ c.Typ then some (false, some msgMismatch)
    else some (c.validateLuhn, none)

/-- The type back-fill step of `Validate` (lines 150-156): when `Type` is
empty, classify; the name of the returned `cardType` is written into the
card unconditionally, so a failed classification (which returns the zero
value `Unknown` alongside its error) writes "Unknown Card". -/
def classifyStep (c : Card) : Option (List String × Card) :=
  if c.Typ.length = 0 then
    match c.determineCardType with
    | none => none
    | some (Except.error e) => some ([e], { c with Typ := cardType.name cardType.Unknown })
    | some (Except.ok t) => some ([], { c with Typ := t.name })
  else some ([], c)

/-- Go method Validate on Card, with `time.Now()` passed in as `now`. Returns
the `Validation` together with the card as mutated by the type back-fill;
`none` models the run faulting instead of returning. The `Errors` list is
assembled by the same appends in the same order as the Go code. -/
def Card.Validate (c : Card) (now : Nat) : Option (Validation × Card) :=
  match classifyStep c with
  | none => none
  | some (typeErrs, c2) =>
    match c2.validCardNumber with
    | none => none
    | some (validNumber, numErr) =>
      some ({ ValidExpiryMonth := c.validExpiryMonth
            , ValidExpiryYear := c.validExpiryYear
            , IsExpired := c.isExpired now
            , ValidCVV := c2.matchCVV
            , ValidCardNumber := validNumber
            , Errors :=
                (if c.validExpiryMonth then [] else [monthMsg c.ExpiryMonth])
                ++ (if c.validExpiryYear then [] else [yearMsg c.ExpiryYear])
                ++ (if c.isExpired now then [msgExpired] else [])
                ++ typeErrs
                ++ (if c2.matchCVV then [msgCvv] else [])
                ++ (match numErr with | some e => [e] | none => [])
                ++ (if validNumber then [msgNumber] else []) }
           , c2)

/-- Modelled from the spec wording of the Luhn check: scanning the digits
from the rightmost, double every second digit (starting with the second
from the right, so the flag starts false), replace a doubled digit `d`
exceeding 9 by `d % 10 + 1`, and sum everything. The list argument holds
the digit values from the rightmost leftwards. -/
def specLuhnSumAux : List Nat → Bool → Nat
  | [], _ => 0
  | d :: rest, doubled =>
    (if doubled then (if d * 2 > 9 then d * 2 % 10 + 1 else d * 2) else d)
      + specLuhnSumAux rest (!doubled)

/-- Spec-side Luhn sum of a digit list given from the rightmost digit
leftwards: the rightmost digit is not doubled. -/
def specLuhnSum (ds : List Nat) : Nat := specLuhnSumAux ds false

/-- Transcription of claim C8 at one input: in the returned `Validation`,
each of the five messages is present exactly when its flag fails, and the
only other message that may appear is the classifier failure text. -/
def errorsReflectFlags (c : Card) (now : Nat) : Bool :=
  match c.Validate now with
  | none => true
  | some (v, _) =>
    (v.Errors.contains (monthMsg c.ExpiryMonth) == !v.ValidExpiryMonth) &&
    (v.Errors.contains (yearMsg c.ExpiryYear) == !v.ValidExpiryYear) &&
    (v.Errors.contains msgExpired == v.IsExpired) &&
    (v.Errors.contains msgCvv == v.ValidCVV) &&
    (v.Errors.contains msgNumber == v.ValidCardNumber) &&
    v.Errors.all (fun e =>
      [monthMsg c.ExpiryMonth, yearMsg c.ExpiryYear, msgExpired, msgCvv,
        msgNumber, msgUnknown].contains e)

/-! Helper lemmas. -/

/-- Strings whose character lists start with different characters differ. -/
theorem ne_of_head_char {s t : String} {a b : Char}
    (hs : s.data.head? = some a) (ht : t.data.head? = some b) (hab : a ≠ b) :
    s ≠ t :=
  fun h => hab (by rw [h, ht] at hs; exact Option.some.inj hs.symm)

theorem monthMsg_head (m : Int) : (monthMsg m).data.head? = some 'm' := rfl

theorem yearMsg_head (y : Int) : (yearMsg y).data.head? = some 'y' := rfl

theorem monthMsg_ne_yearMsg (m y : Int) : monthMsg m ≠ yearMsg y :=
  ne_of_head_char (monthMsg_head m) (yearMsg_head y) (by decide)

theorem monthMsg_ne_expired (m : Int) : monthMsg m ≠ msgExpired :=
  ne_of_head_char (monthMsg_head m) rfl (by decide)

theorem monthMsg_ne_cvv (m : Int) : monthMsg m ≠ msgCvv :=
  ne_of_head_char (monthMsg_head m) rfl (by decide)

theorem monthMsg_ne_number (m : Int) : monthMsg m ≠ msgNumber :=
  ne_of_head_char (monthMsg_head m) rfl (by decide)

theorem monthMsg_ne_unknown (m : Int) : monthMsg m ≠ msgUnknown :=
  ne_of_head_char (monthMsg_head m) rfl (by decide)

theorem monthMsg_ne_mismatch (m : Int) : monthMsg m ≠ msgMismatch :=
  ne_of_head_char (monthMsg_head m) rfl (by decide)

theorem yearMsg_ne_expired (y : Int) : yearMsg y ≠ msgExpired :=
  ne_of_head_char (yearMsg_head y) rfl (by decide)

theorem yearMsg_ne_cvv (y : Int) : yearMsg y ≠ msgCvv :=
  ne_of_head_char (yearMsg_head y) rfl (by decide)

theorem yearMsg_ne_number (y : Int) : yearMsg y ≠ msgNumber :=
  ne_of_head_char (yearMsg_head y) rfl (by decide)

theorem yearMsg_ne_unknown (y : Int) : yearMsg y ≠ msgUnknown :=
  ne_of_head_char (yearMsg_head y) rfl (by decide)

theorem yearMsg_ne_mismatch (y : Int) : yearMsg y ≠ msgMismatch :=
  ne_of_head_char (yearMsg_head y) rfl (by decide)

/-- Membership in a flag-guarded singleton (message appended when the flag
is true). -/
theorem mem_ite_singleton_pos {a x : String} {b : Bool} :
    a ∈ (if b then [x] else ([] : List String)) ↔ b = true ∧ a = x := by
  cases b <;> simp

/-- Membership in a flag-guarded singleton (message appended when the flag
is false). -/
theorem mem_ite_singleton_neg {a x : String} {b : Bool} :
    a ∈ (if b then ([] : List String) else [x]) ↔ b = false ∧ a = x := by
  cases b <;> simp

/-- Stripping an ite whose then-branch is not an error result. -/
theorem error_of_ite {c : Prop} [Decidable c] {x : Option (Except String cardType)}
    {t : cardType} {e : String}
    (h : (if c then some (Except.ok t) else x) = some (Except.error e)) :
    x = some (Except.error e) := by
  by_cases hc : c
  · rw [if_pos hc] at h; exact absurd h (by simp)
  · rwa [if_neg hc] at h

/-- Stripping an ite whose then-branch is the fault result. -/
theorem error_of_ite_fault {c : Prop} [Decidable c]
    {x : Option (Except String cardType)} {e : String}
    (h : (if c then none else x) = some (Except.error e)) :
    x = some (Except.error e) := by
  by_cases hc : c
  · rw [if_pos hc] at h; exact absurd h (by simp)
  · rwa [if_neg hc] at h

/-- The only error the classifier switch ever returns is `msgUnknown`. -/
theorem determineSwitch_error {number : String} {at1 at2 at3 at4 at5 at6 : Int}
    {e : String}
    (h : determineSwitch number at1 at2 at3 at4 at5 at6 = some (Except.error e)) :
    e = msgUnknown := by
  unfold determineSwitch at h
  replace h := error_of_ite h
  replace h := error_of_ite h
  replace h := error_of_ite h
  replace h := error_of_ite h
  replace h := error_of_ite h
  replace h := error_of_ite h
  replace h := error_of_ite h
  replace h := error_of_ite h
  replace h := error_of_ite h
  replace h := error_of_ite h
  replace h := error_of_ite h
  replace h := error_of_ite h
  replace h := error_of_ite h
  replace h := error_of_ite_fault h
  replace h := error_of_ite h
  replace h := error_of_ite h
  replace h := error_of_ite h
  replace h := error_of_ite h
  replace h := error_of_ite h
  replace h := error_of_ite h
  replace h := error_of_ite h
  have h2 := Option.some.inj h
  injection h2 with h3
  exact h3.symm

/-- The only error `determineCardType` ever returns is `msgUnknown`. -/
theorem determineCardType_error {c : Card} {e : String}
    (h : c.determineCardType = some (Except.error e)) : e = msgUnknown :=
  determineSwitch_error h

/-- The classifier `determineCardType` only reads the `Number` field. -/
theorem determineCardType_typ (c : Card) (s : String) :
    Card.determineCardType { c with Typ := s } = c.determineCardType := rfl

/-- The Luhn check `validateLuhn` only reads the `Number` field. -/
theorem validateLuhn_typ (c : Card) (s : String) :
    Card.validateLuhn { c with Typ := s } = c.validateLuhn := rfl

/-- The message list produced by the back-fill step is empty or the
classifier failure message alone. -/
theorem classifyStep_typeErrs {c : Card} {errs : List String} {c2 : Card}
    (h : classifyStep c = some (errs, c2)) : errs = [] ∨ errs = [msgUnknown] := by
  unfold classifyStep at h
  split at h
  · split at h
    · exact absurd h (by simp)
    · rename_i e heq
      simp only [Option.some.injEq, Prod.mk.injEq] at h
      right
      rw [← h.1, determineCardType_error heq]
    · simp only [Option.some.injEq, Prod.mk.injEq] at h
      exact Or.inl h.1.symm
  · simp only [Option.some.injEq, Prod.mk.injEq] at h
    exact Or.inl h.1.symm

/-- The optional message produced by `validCardNumber` is nothing, the
classifier failure message, or the type-mismatch message. -/
theorem validCardNumber_numErr {c : Card} {b : Bool} {numErr : Option String}
    (h : c.validCardNumber = some (b, numErr)) :
    numErr = none ∨ numErr = some msgUnknown ∨ numErr = some msgMismatch := by
  unfold Card.validCardNumber at h
  split at h
  · exact absurd h (by simp)
  · rename_i e heq
    simp only [Option.some.injEq, Prod.mk.injEq] at h
    right; left
    rw [← h.2, determineCardType_error heq]
  · split at h <;> simp only [Option.some.injEq, Prod.mk.injEq] at h
    · right; right; rw [← h.2]
    · left; rw [← h.2]

/-! Claim theorems. -/

/-- Claim C1 (code bug): `Validate` is claimed never to fault, for every
value of the fields including numbers shorter than 3 characters; but on the
card with number "4" (shorter than 3 characters) the classifier reaches the
slice `c.Number[:3]` in the Maestro case, which faults, so `Validate`
faults instead of returning a `Validation` object. -/
theorem C1_validate_faults_on_short_number :
    Card.determineCardType ⟨"", "4", 1, 2000, "123"⟩ = none ∧
    Card.Validate ⟨"", "4", 1, 2000, "123"⟩ 20190601 = none := by decide

/-- Claim C2 (code bug): the claim says `ValidCVV` is true exactly when the
CVV length does NOT equal the required length (4 for American Express).
On the repository test card (number "378282246310005", CVV "1234", network
inferred as "American Express"), the CVV length 4 EQUALS the required
length, yet the code returns `ValidCVV = true` and appends the message —
the repository test asserts an empty error list here, so the code
contradicts its own test. -/
theorem C2_validCVV_true_on_matching_cvv :
    Card.Validate ⟨"", "378282246310005", 11, 2020, "1234"⟩ 20190601 =
      some (⟨true, true, true, true, false, [msgCvv, msgNumber]⟩,
            ⟨"American Express", "378282246310005", 11, 2020, "1234"⟩) ∧
    ("1234" : String).length = 4 := by decide

/-- Claim C3 (code bug): for the valid month 1 and valid year 2200 the
first-of-month date 2200-01-01 is not before the instant 2026-10-12, yet
`isExpired` reports true: the date string "2200-1-01" renders the month
with one digit, the fixed-width layout "2006-01-02" rejects it, the parse
error is discarded, and the zero time is compared instead. -/
theorem C3_expired_for_future_single_digit_month :
    Card.isExpired ⟨"", "5019717010103742", 1, 2200, "123"⟩ 20261012 = true ∧
    Card.validExpiryMonth ⟨"", "5019717010103742", 1, 2200, "123"⟩ = true ∧
    Card.validExpiryYear ⟨"", "5019717010103742", 1, 2200, "123"⟩ = true ∧
    ¬ (timeCode 2200 1 1 < 20261012) := by decide

/-- Claim C4 (code bug): on the test card (number "5019717010103742",
month 11, year 2019, CVV "1234", no network) the network "Dankort" is
indeed written back; but with year 2020 the error list is not empty even
at an instant (2019-06-01) before the expiry date: the number passes the
Luhn check and the code then appends "card number is not valid", so the
repository test asserting an empty list fails. -/
theorem C4_dankort_inferred_but_errors_nonempty :
    Card.Validate ⟨"", "5019717010103742", 11, 2019, "1234"⟩ 20190601 =
      some (⟨true, true, true, false, false, [msgNumber]⟩,
            ⟨"Dankort", "5019717010103742", 11, 2019, "1234"⟩) ∧
    Card.Validate ⟨"", "5019717010103742", 11, 2020, "1234"⟩ 20190601 =
      some (⟨true, true, true, false, false, [msgNumber]⟩,
            ⟨"Dankort", "5019717010103742", 11, 2020, "1234"⟩) := by decide

/-- Claim C5 counterexample: on the card with number "0000000000" and empty
network field, classification fails (the failure message is appended), yet
the network field is NOT left empty: the name "Unknown Card" of the zero
`cardType` value is written into it. -/
theorem C5_counterexample_unknown_written :
    Card.Validate ⟨"", "0000000000", 11, 2020, "1234"⟩ 20190601 =
      some (⟨false, true, true, false, false, [msgUnknown, msgUnknown]⟩,
            ⟨"Unknown Card", "0000000000", 11, 2020, "1234"⟩) ∧
    ("Unknown Card" : String) ≠ "" := by decide

/-- Claim C5 as amended: when the network field is empty and classification
fails, `Validate` appends the classifier failure message and writes the
display name "Unknown Card" of the zero `cardType` value into the field
(rather than leaving it empty). -/
theorem C5_amended_unknown_written (c : Card) (now : Nat) (e : String)
    (v : Validation) (c2 : Card)
    (hty : c.Typ = "")
    (hfail : c.determineCardType = some (Except.error e))
    (hv : c.Validate now = some (v, c2)) :
    e ∈ v.Errors ∧ c2.Typ = "Unknown Card" := by
  have hcs : classifyStep c = some ([e], { c with Typ := "Unknown Card" }) := by
    unfold classifyStep
    rw [hty]
    simp [hfail, cardType.name]
  have hvn : Card.validCardNumber { c with Typ := "Unknown Card" }
      = some (false, some e) := by
    unfold Card.validCardNumber
    rw [determineCardType_typ, hfail]
  unfold Card.Validate at hv
  simp only [hcs, hvn, Option.some.injEq, Prod.mk.injEq] at hv
  obtain ⟨hv1, hv2⟩ := hv
  refine ⟨?_, by rw [← hv2]⟩
  rw [← hv1]
  simp

/-- Claim C5 amended, witness at the card with number "0000000000". -/
theorem C5_amended_unknown_written_witness :
    (⟨"", "0000000000", 11, 2020, "1234"⟩ : Card).Typ = "" ∧
    Card.determineCardType ⟨"", "0000000000", 11, 2020, "1234"⟩
      = some (Except.error msgUnknown) ∧
    msgUnknown ∈ (⟨false, true, true, false, false,
      [msgUnknown, msgUnknown]⟩ : Validation).Errors ∧
    (⟨"Unknown Card", "0000000000", 11, 2020, "1234"⟩ : Card).Typ
      = "Unknown Card" :=
  ⟨rfl, by decide,
    C5_amended_unknown_written ⟨"", "0000000000", 11, 2020, "1234"⟩ 20190601
      msgUnknown _ _ rfl (by decide) (by decide)⟩

/-- Claim C6 (code bug): the number "0604000000000000" has first four
characters "0604" and matches no earlier rule, so the claim says it
classifies as Maestro; but the code compares the THREE character slice
`c.Number[:3]` with the four character literal "0604", which can never be
equal, and classification fails with the unknown-type error. -/
theorem C6_first4_0604_not_maestro :
    Card.determineCardType ⟨"", "0604000000000000", 11, 2020, "123"⟩
      = some (Except.error msgUnknown) ∧
    String.mk (("0604000000000000" : String).data.take 4) = "0604" := by decide

/-- Claim C8 counterexample: on the card with caller-supplied network
"Visa" and an American Express number, the error list contains the
type-mismatch message, which is neither one of the five flag messages nor
the classifier failure text, so the error list does not exactly reflect
the flags with at most the classifier text in addition. -/
theorem C8_counterexample_mismatch_message :
    errorsReflectFlags ⟨"Visa", "340000000000009", 11, 2020, "123"⟩ 20190601
      = false := by decide

/-- Claim C9 (confirmed): when the network field is initially empty and
classification of the number succeeds, `Validate` never appends the
type-mismatch message, and `ValidCardNumber` is exactly the Luhn check
result on the number. -/
theorem C9_no_mismatch_when_type_inferred (c : Card) (now : Nat)
    (t : cardType) (v : Validation) (c2 : Card)
    (hty : c.Typ = "") (hcl : c.determineCardType = some (Except.ok t))
    (hv : c.Validate now = some (v, c2)) :
    msgMismatch ∉ v.Errors ∧ v.ValidCardNumber = c.validateLuhn := by
  have hcs : classifyStep c = some ([], { c with Typ := t.name }) := by
    unfold classifyStep
    rw [hty]
    simp [hcl]
  have hvn : Card.validCardNumber { c with Typ := t.name }
      = some (c.validateLuhn, none) := by
    unfold Card.validCardNumber
    rw [determineCardType_typ, hcl]
    simp [validateLuhn_typ]
  unfold Card.Validate at hv
  simp only [hcs, hvn, Option.some.injEq, Prod.mk.injEq] at hv
  obtain ⟨hv1, hv2⟩ := hv
  refine ⟨?_, by rw [← hv1]⟩
  rw [← hv1]
  simp only [Validation.Errors]
  simp [List.mem_append, mem_ite_singleton_pos, mem_ite_singleton_neg,
    Ne.symm (monthMsg_ne_mismatch c.ExpiryMonth),
    Ne.symm (yearMsg_ne_mismatch c.ExpiryYear),
    (by decide : msgMismatch ≠ msgExpired),
    (by decide : msgMismatch ≠ msgCvv),
    (by decide : msgMismatch ≠ msgNumber)]

/-- Claim C9, witness at the Dankort test card. -/
theorem C9_no_mismatch_when_type_inferred_witness :
    (⟨"", "5019717010103742", 11, 2020, "1234"⟩ : Card).Typ = "" ∧
    Card.determineCardType ⟨"", "5019717010103742", 11, 2020, "1234"⟩
      = some (Except.ok cardType.Dankort) ∧
    msgMismatch ∉ (⟨true, true, true, false, false,
      [msgNumber]⟩ : Validation).Errors ∧
    (⟨true, true, true, false, false, [msgNumber]⟩ : Validation).ValidCardNumber
      = Card.validateLuhn ⟨"", "5019717010103742", 11, 2020, "1234"⟩ :=
  ⟨rfl, by decide,
    C9_no_mismatch_when_type_inferred ⟨"", "5019717010103742", 11, 2020, "1234"⟩
      20190601 cardType.Dankort ⟨true, true, true, false, false, [msgNumber]⟩
      ⟨"Dankort", "5019717010103742", 11, 2020, "1234"⟩
      rfl (by decide) (by decide)⟩

/-- Model fact: Atoi on a one-character digit string yields the digit value. -/
theorem goAtoi_singleton_digit (ch : Char) (h : ch.isDigit = true) :
    goAtoi (String.singleton ch) = (charDigit ch : Int) := by
  have hp : ch ≠ '+' := by rintro rfl; exact absurd h (by decide)
  have hm : ch ≠ '-' := by rintro rfl; exact absurd h (by decide)
  simp [goAtoi, String.singleton, hp, hm, h, digitsVal]

/-- The Go Luhn loop sum agrees with the spec-side sum on digit strings. -/
theorem luhnSumRev_eq_spec (l : List Char) (alt : Bool)
    (h : ∀ ch ∈ l, ch.isDigit = true) :
    luhnSumRev l alt = (specLuhnSumAux (l.map charDigit) alt : Int) := by
  induction l generalizing alt with
  | nil => simp [luhnSumRev, specLuhnSumAux]
  | cons ch rest ih =>
    have hch : ch.isDigit = true := h ch (by simp)
    have hrest : ∀ c ∈ rest, c.isDigit = true := fun c hc => h c (by simp [hc])
    simp only [luhnSumRev, specLuhnSumAux, List.map_cons]
    rw [goAtoi_singleton_digit ch hch, ih (!alt) hrest]
    cases alt with
    | false => push_cast; ring
    | true =>
      by_cases hd : charDigit ch * 2 > 9
      · rw [if_pos hd, if_pos (by exact_mod_cast hd :
          (charDigit ch : Int) * 2 > 9)]
        push_cast
        omega
      · rw [if_neg hd, if_neg (by exact_mod_cast hd :
          ¬ (charDigit ch : Int) * 2 > 9)]
        push_cast
        ring

/-- Claim C7 (confirmed): on digit strings, `validateLuhn` returns true
exactly when the digit count lies in [13,19] and the spec-side Luhn sum
(rightmost digit first, every second digit doubled with the
exceeds-9 reduction) is a multiple of 10; in particular it returns false
whenever the digit count lies outside [13,19]. -/
theorem C7_luhn_spec (c : Card) (h : ∀ ch ∈ c.Number.data, ch.isDigit = true) :
    c.validateLuhn = true ↔
      (13 ≤ c.Number.length ∧ c.Number.length ≤ 19 ∧
        specLuhnSum ((c.Number.data.map charDigit).reverse) % 10 = 0) := by
  unfold Card.validateLuhn
  by_cases hl : c.Number.length < 13 ∨ c.Number.length > 19
  · rw [if_pos hl]
    constructor
    · intro hfalse; exact absurd hfalse (by simp)
    · intro hr; omega
  · rw [if_neg hl]
    have hrev : ∀ ch ∈ c.Number.data.reverse, ch.isDigit = true := by
      intro ch hc
      exact h ch (List.mem_reverse.mp hc)
    rw [luhnSumRev_eq_spec _ _ hrev]
    rw [← List.map_reverse]
    simp only [specLuhnSum, beq_iff_eq]
    push_neg at hl
    constructor
    · intro he
      refine ⟨hl.1, hl.2, ?_⟩
      omega
    · intro hr
      omega

/-- Claim C7, witness at the Luhn-valid digit string "5019717010103742"
of length 16. -/
theorem C7_luhn_spec_witness :
    (∀ ch ∈ (⟨"", "5019717010103742", 11, 2020, "1234"⟩ : Card).Number.data,
      ch.isDigit = true) ∧
    (Card.validateLuhn ⟨"", "5019717010103742", 11, 2020, "1234"⟩ = true ↔
      (13 ≤ (⟨"", "5019717010103742", 11, 2020, "1234"⟩ : Card).Number.length ∧
        (⟨"", "5019717010103742", 11, 2020, "1234"⟩ : Card).Number.length ≤ 19 ∧
        specLuhnSum (((⟨"", "5019717010103742", 11, 2020, "1234"⟩ :
          Card).Number.data.map charDigit).reverse) % 10 = 0)) :=
  ⟨by decide, C7_luhn_spec ⟨"", "5019717010103742", 11, 2020, "1234"⟩ (by decide)⟩

/-- Model fact: Atoi yields the zero value on any prefix starting with the digit 4
followed by a non-digit character. -/
theorem goAtoi_nondigit_snd (ch : Char) (l : List Char)
    (hch : ch.isDigit = false) :
    goAtoi (String.mk ('4' :: ch :: l)) = 0 := by
  simp [goAtoi, hch]

/-- Stripping an ite on the way to a later branch of the switch. -/
theorem skip_ite {c : Prop} [Decidable c] {x y r : Option (Except String cardType)}
    (hc : ¬ c) (h : x = r) : (if c then y else x) = r := by
  rw [if_neg hc]; exact h

/-- The switch reaches the Visa rule when the 1-character prefix value is 4
and all longer prefix values are 0 (and the number, at least 3 characters
long, does not start with "060", so the Maestro string test fails). -/
theorem determineSwitch_visa (number : String) (h3 : 3 ≤ number.length)
    (hne : String.mk (number.data.take 3) ≠ "0604") :
    determineSwitch number 4 0 0 0 0 0 = some (Except.ok cardType.Visa) := by
  unfold determineSwitch
  refine skip_ite (by omega) ?_
  refine skip_ite (by omega) ?_
  refine skip_ite (by omega) ?_
  refine skip_ite (by omega) ?_
  refine skip_ite (by omega) ?_
  refine skip_ite (by omega) ?_
  refine skip_ite (by omega) ?_
  refine skip_ite (by omega) ?_
  refine skip_ite (by omega) ?_
  refine skip_ite (by omega) ?_
  refine skip_ite (by omega) ?_
  refine skip_ite (by omega) ?_
  refine skip_ite (by omega) ?_
  refine skip_ite (by omega) ?_
  refine skip_ite (by push_neg; exact ⟨hne, by omega⟩) ?_
  refine skip_ite (by omega) ?_
  refine skip_ite (by omega) ?_
  refine skip_ite (by omega) ?_
  refine skip_ite (by omega) ?_
  refine skip_ite (by omega) ?_
  rw [if_pos (by omega : (4 : Int) = 4)]

/-- Claim C10 (confirmed): for a number of length at least 3 whose first
character is the digit 4 and whose second character is not a digit, every
prefix of length 2 to 6 fails integer conversion and is stored as 0, no
earlier rule matches, and classification succeeds with Visa through the
1-character prefix value 4. -/
theorem C10_nondigit_second_char_visa (c : Card) (ch : Char) (rest : List Char)
    (hnum : c.Number.data = '4' :: ch :: rest)
    (hch : ch.isDigit = false) (hrest : rest ≠ []) :
    ccDigitsAt c.Number 1 = 4 ∧
    ccDigitsAt c.Number 2 = 0 ∧ ccDigitsAt c.Number 3 = 0 ∧
    ccDigitsAt c.Number 4 = 0 ∧ ccDigitsAt c.Number 5 = 0 ∧
    ccDigitsAt c.Number 6 = 0 ∧
    c.determineCardType = some (Except.ok cardType.Visa) := by
  have hlen : c.Number.length = rest.length + 2 := by
    show c.Number.data.length = rest.length + 2
    rw [hnum]
    simp
  have h3 : 3 ≤ c.Number.length := by
    have : 0 < rest.length := List.length_pos.mpr hrest
    omega
  have hz : ∀ l : List Char, goAtoi (String.mk ('4' :: ch :: l)) = 0 :=
    fun l => goAtoi_nondigit_snd ch l hch
  have h1 : ccDigitsAt c.Number 1 = 4 := by
    unfold ccDigitsAt
    rw [if_pos (by omega), hnum]
    show goAtoi (String.mk ['4']) = 4
    decide
  have e2 : ccDigitsAt c.Number 2 = 0 := by
    unfold ccDigitsAt
    split
    · rw [hnum]; exact hz _
    · rfl
  have e3 : ccDigitsAt c.Number 3 = 0 := by
    unfold ccDigitsAt
    split
    · rw [hnum]; exact hz _
    · rfl
  have e4 : ccDigitsAt c.Number 4 = 0 := by
    unfold ccDigitsAt
    split
    · rw [hnum]; exact hz _
    · rfl
  have e5 : ccDigitsAt c.Number 5 = 0 := by
    unfold ccDigitsAt
    split
    · rw [hnum]; exact hz _
    · rfl
  have e6 : ccDigitsAt c.Number 6 = 0 := by
    unfold ccDigitsAt
    split
    · rw [hnum]; exact hz _
    · rfl
  have hne : String.mk (c.Number.data.take 3) ≠ "0604" := by
    rw [hnum]
    exact @ne_of_head_char _ _ '4' '0' rfl rfl (by decide)
  refine ⟨h1, e2, e3, e4, e5, e6, ?_⟩
  unfold Card.determineCardType
  rw [h1, e2, e3, e4, e5, e6]
  exact determineSwitch_visa c.Number h3 hne

/-- Claim C10, witness at the number "4x000", whose second character is not
a digit. -/
theorem C10_nondigit_second_char_visa_witness :
    (⟨"", "4x000", 11, 2020, "123"⟩ : Card).Number.data
      = '4' :: 'x' :: ['0', '0', '0'] ∧
    ccDigitsAt "4x000" 1 = 4 ∧
    ccDigitsAt "4x000" 2 = 0 ∧ ccDigitsAt "4x000" 3 = 0 ∧
    ccDigitsAt "4x000" 4 = 0 ∧ ccDigitsAt "4x000" 5 = 0 ∧
    ccDigitsAt "4x000" 6 = 0 ∧
    Card.determineCardType ⟨"", "4x000", 11, 2020, "123"⟩
      = some (Except.ok cardType.Visa) :=
  ⟨rfl, C10_nondigit_second_char_visa ⟨"", "4x000", 11, 2020, "123"⟩ 'x'
    ['0', '0', '0'] rfl (by decide) (by decide)⟩

/-- Claim C8 as amended: in any `Validation` that `Validate` returns, each
of the five flag messages is present exactly when its flag fails, and every
member of the error list is one of the five flag messages, the classifier
failure text, or the type-mismatch message (the mismatch message, absent
from the original claim, is the one addition the counterexample forces). -/
theorem C8_amended_errors_reflect_flags (c : Card) (now : Nat)
    (v : Validation) (c2 : Card)
    (hv : c.Validate now = some (v, c2)) :
    (monthMsg c.ExpiryMonth ∈ v.Errors ↔ v.ValidExpiryMonth = false) ∧
    (yearMsg c.ExpiryYear ∈ v.Errors ↔ v.ValidExpiryYear = false) ∧
    (msgExpired ∈ v.Errors ↔ v.IsExpired = true) ∧
    (msgCvv ∈ v.Errors ↔ v.ValidCVV = true) ∧
    (msgNumber ∈ v.Errors ↔ v.ValidCardNumber = true) ∧
    v.Errors ⊆ [monthMsg c.ExpiryMonth, yearMsg c.ExpiryYear, msgExpired,
      msgCvv, msgNumber, msgUnknown, msgMismatch] := by
  unfold Card.Validate at hv
  cases hcs : classifyStep c with
  | none => rw [hcs] at hv; exact absurd hv (by simp)
  | some p =>
    obtain ⟨typeErrs, cb⟩ := p
    cases hvn : cb.validCardNumber with
    | none =>
      simp only [hcs, hvn] at hv
      exact absurd hv (by simp)
    | some q =>
      obtain ⟨validNumber, numErr⟩ := q
      simp only [hcs, hvn, Option.some.injEq, Prod.mk.injEq] at hv
      obtain ⟨hv1, hv2⟩ := hv
      subst hv1
      have hte := classifyStep_typeErrs hcs
      have hnerr := validCardNumber_numErr hvn
      rcases hte with rfl | rfl <;> rcases hnerr with rfl | rfl | rfl <;>
        refine ⟨?_, ?_, ?_, ?_, ?_, ?_⟩ <;>
        simp [List.mem_append, mem_ite_singleton_pos, mem_ite_singleton_neg,
          List.subset_def,
          monthMsg_ne_yearMsg c.ExpiryMonth c.ExpiryYear,
          monthMsg_ne_expired c.ExpiryMonth,
          monthMsg_ne_cvv c.ExpiryMonth,
          monthMsg_ne_number c.ExpiryMonth,
          monthMsg_ne_unknown c.ExpiryMonth,
          monthMsg_ne_mismatch c.ExpiryMonth,
          Ne.symm (monthMsg_ne_yearMsg c.ExpiryMonth c.ExpiryYear),
          yearMsg_ne_expired c.ExpiryYear,
          yearMsg_ne_cvv c.ExpiryYear,
          yearMsg_ne_number c.ExpiryYear,
          yearMsg_ne_unknown c.ExpiryYear,
          yearMsg_ne_mismatch c.ExpiryYear,
          Ne.symm (monthMsg_ne_expired c.ExpiryMonth),
          Ne.symm (yearMsg_ne_expired c.ExpiryYear),
          Ne.symm (monthMsg_ne_cvv c.ExpiryMonth),
          Ne.symm (yearMsg_ne_cvv c.ExpiryYear),
          Ne.symm (monthMsg_ne_number c.ExpiryMonth),
          Ne.symm (yearMsg_ne_number c.ExpiryYear),
          (by decide : msgExpired ≠ msgCvv),
          (by decide : msgExpired ≠ msgNumber),
          (by decide : msgExpired ≠ msgUnknown),
          (by decide : msgExpired ≠ msgMismatch),
          (by decide : msgCvv ≠ msgExpired),
          (by decide : msgCvv ≠ msgNumber),
          (by decide : msgCvv ≠ msgUnknown),
          (by decide : msgCvv ≠ msgMismatch),
          (by decide : msgNumber ≠ msgExpired),
          (by decide : msgNumber ≠ msgCvv),
          (by decide : msgNumber ≠ msgUnknown),
          (by decide : msgNumber ≠ msgMismatch)] <;>
        tauto

/-- Claim C8 amended, witness at the American Express test card. -/
theorem C8_amended_errors_reflect_flags_witness :
    Card.Validate ⟨"", "378282246310005", 11, 2020, "1234"⟩ 20190601 =
      some (⟨true, true, true, true, false, [msgCvv, msgNumber]⟩,
            ⟨"American Express", "378282246310005", 11, 2020, "1234"⟩) ∧
    ((monthMsg 11 ∈ [msgCvv, msgNumber] ↔ (true : Bool) = false) ∧
     (yearMsg 2020 ∈ [msgCvv, msgNumber] ↔ (true : Bool) = false) ∧
     (msgExpired ∈ [msgCvv, msgNumber] ↔ (false : Bool) = true) ∧
     (msgCvv ∈ [msgCvv, msgNumber] ↔ (true : Bool) = true) ∧
     (msgNumber ∈ [msgCvv, msgNumber] ↔ (true : Bool) = true) ∧
     [msgCvv, msgNumber] ⊆ [monthMsg 11, yearMsg 2020, msgExpired,
       msgCvv, msgNumber, msgUnknown, msgMismatch]) :=
  ⟨by decide,
    C8_amended_errors_reflect_flags ⟨"", "378282246310005", 11, 2020, "1234"⟩
      20190601 ⟨true, true, true, true, false, [msgCvv, msgNumber]⟩
      ⟨"American Express", "378282246310005", 11, 2020, "1234"⟩ (by decide)⟩

end Creditcard
